import Mathlib

/-!
Verification development for the UCR campus power-grid model (`src/main.py`).

The Python source assembles a pandapower network (buses, lines, transformers,
switches, loads, one external grid) for the UCR campus, then runs three power
flow scenarios (base case, heatwave load scaling, feeder outage).  This file
gives a shallow embedding of that construction and of the scenario driver:

* physical parameters are embedded as exact rationals (the Python floats are
  decimal literals, represented exactly);
* the reactive-power formula `q_mvar = p_mw * tan(acos(pf))` is embedded over
  the reals, with the domain error of `math.acos` (raised for |pf| > 1)
  modelled by an `Option` result of the construction;
* the external power-flow solver (pandapower's `runpp`) is not part of the
  repository; where a claim needs its behaviour (topology processing of open
  switches, served power) the relevant part is modelled from the
  specification, as marked in the corresponding doc comments.
-/

namespace UCRGrid

/-- A node of the network: display name and nominal voltage in kV
(pandapower `create_bus` with `vn_kv`, `name`). -/
structure Bus where
  name : String
  vn_kv : ℚ
deriving DecidableEq

/-- An external-grid (slack / voltage source) record: the bus it is attached
to and its voltage-magnitude set point in per unit (pandapower
`create_ext_grid(net, bus, vm_pu)`). -/
structure ExtGrid where
  bus : Nat
  vm_pu : ℚ
deriving DecidableEq

/-- A line record, with the parameters passed to pandapower
`create_line_from_parameters`. Buses are indices into `Network.buses`. -/
structure Line where
  from_bus : Nat
  to_bus : Nat
  length_km : ℚ
  r_ohm_per_km : ℚ
  x_ohm_per_km : ℚ
  c_nf_per_km : ℚ
  max_i_ka : ℚ
  name : String
deriving DecidableEq

/-- A transformer record, with the parameters passed to pandapower
`create_transformer_from_parameters`. -/
structure Transformer where
  hv_bus : Nat
  lv_bus : Nat
  sn_mva : ℚ
  vn_hv_kv : ℚ
  vn_lv_kv : ℚ
  vkr_percent : ℚ
  vk_percent : ℚ
  pfe_kw : ℚ
  i0_percent : ℚ
  name : String
deriving DecidableEq

/-- The kind of element a switch is attached to: pandapower `et="l"` (line)
or `et="t"` (transformer). -/
inductive ElementKind where
  | line
  | trafo
deriving DecidableEq

/-- A switch record (pandapower `create_switch`): the bus-side terminal, the
index of the governed element, its kind, a descriptive type tag ("CB" or
"LBS"), and the closed/open state. -/
structure Switch where
  bus : Nat
  element : Nat
  et : ElementKind
  kind_tag : String
  closed : Bool
  name : String
deriving DecidableEq

/-- The reactive-power value computed on line 169 of `src/main.py`,
`q_mvar = p_mw * math.tan(math.acos(pf))`, kept symbolically as the exact
pair of arguments of that computation (the value itself is the irrational
real number characterized by `QMvarEq`, which keeps the embedding
executable). -/
structure QVal where
  p : ℚ
  pf : ℚ
deriving DecidableEq

/-- States that the real number `x` is the value of line 169's formula
`p * tan(acos pf)` at rational inputs `p`, `pf`. -/
def QMvarEq (p pf : ℚ) (x : ℝ) : Prop :=
  x = (p : ℝ) * Real.tan (Real.arccos (pf : ℝ))

/-- States that the real number `x` is the value of the `QVal` `q`. -/
def QVal.Means (q : QVal) (x : ℝ) : Prop := QMvarEq q.p q.pf x

/-- A load record (pandapower `create_load`): bus, active power (MW), reactive
power (MVAr, the symbolically represented real computed from the power
factor), and the multiplicative scaling factor, which pandapower defaults
to 1.0. -/
structure Load where
  bus : Nat
  p_mw : ℚ
  q_mvar : QVal
  scaling : ℚ
  name : String
deriving DecidableEq

/-- The network: the element tables of the pandapower `net` object that
`src/main.py` populates, in creation order. -/
structure Network where
  buses : List Bus
  ext_grids : List ExtGrid
  lines : List Line
  trafos : List Transformer
  switches : List Switch
  loads : List Load

/-- The empty network (pandapower `create_empty_network`). -/
def emptyNetwork : Network :=
  { buses := [], ext_grids := [], lines := [], trafos := [], switches := [], loads := [] }

/-- Append a bus; returns the new network and the bus's index (pandapower
indices are assigned in creation order). -/
def addBus (net : Network) (vn : ℚ) (nm : String) : Network × Nat :=
  ({ net with buses := net.buses ++ [{ name := nm, vn_kv := vn }] }, net.buses.length)

/-- Append an external grid record. -/
def addExtGrid (net : Network) (b : Nat) (vm : ℚ) : Network :=
  { net with ext_grids := net.ext_grids ++ [{ bus := b, vm_pu := vm }] }

/-- Append a line; returns the new network and the line's index. -/
def addLine (net : Network) (fb tb : Nat) (len r x c imax : ℚ) (nm : String) :
    Network × Nat :=
  ({ net with lines := net.lines ++
      [{ from_bus := fb, to_bus := tb, length_km := len, r_ohm_per_km := r,
         x_ohm_per_km := x, c_nf_per_km := c, max_i_ka := imax, name := nm }] },
   net.lines.length)

/-- Append a transformer; returns the new network and the transformer's index. -/
def addTrafo (net : Network) (hv lv : Nat) (sn vhv vlv vkr vk pfe i0 : ℚ)
    (nm : String) : Network × Nat :=
  ({ net with trafos := net.trafos ++
      [{ hv_bus := hv, lv_bus := lv, sn_mva := sn, vn_hv_kv := vhv,
         vn_lv_kv := vlv, vkr_percent := vkr, vk_percent := vk, pfe_kw := pfe,
         i0_percent := i0, name := nm }] },
   net.trafos.length)

/-- Append a switch. -/
def addSwitch (net : Network) (b el : Nat) (k : ElementKind) (tag : String)
    (cl : Bool) (nm : String) : Network :=
  { net with switches := net.switches ++
      [{ bus := b, element := el, et := k, kind_tag := tag, closed := cl, name := nm }] }

/-- Append a load with the pandapower default scaling factor 1.0. -/
def addLoad (net : Network) (b : Nat) (p : ℚ) (q : QVal) (nm : String) : Network :=
  { net with loads := net.loads ++
      [{ bus := b, p_mw := p, q_mvar := q, scaling := 1, name := nm }] }

/-- One entry of the building catalog: name, active power demand in MW, and
lagging power factor, as in `get_ucr_building_data`. -/
structure BuildingSpec where
  bname : String
  p_mw : ℚ
  pf : ℚ
deriving DecidableEq

/-- A building catalog: feeder names with their ordered building lists
(a Python dict iterates in insertion order, so a list is faithful). -/
abbrev Catalog : Type := List (String × List BuildingSpec)

/-- Whether `math.acos` accepts the argument: it raises `ValueError` exactly
when the argument lies outside `[-1, 1]`. -/
def acosDomainOk (pf : ℚ) : Bool := decide (-1 ≤ pf ∧ pf ≤ 1)

/-- The body of the building loop of `create_ucr_network` (lines 166-231):
for each building compute `q_mvar`, create the MV bus, the line from the
previous bus, the LV bus, the building transformer, the fuse switch and the
load, then chain `previous_bus` to the building's MV bus.  Returns `none`
when `math.acos` would raise (power factor out of its domain). -/
def addBuildings (net : Network) (prev : Nat) :
    List BuildingSpec → Option Network
  | [] => some net
  | b :: rest =>
    if acosDomainOk b.pf then
      let q : QVal := ⟨b.p_mw, b.pf⟩
      let s1 := addBus net 12 (("MV - ") ++ b.bname)
      let s2 := addLine s1.1 prev s1.2 (3/10) (16/100) (12/100) 250 (4/10)
        (("Line to ") ++ b.bname)
      let s3 := addBus s2.1 (48/100) (("LV - ") ++ b.bname)
      let s4 := addTrafo s3.1 s1.2 s3.2 (3/2) 12 (48/100) 1 5 2 (4/10)
        (("Trafo ") ++ b.bname)
      let s5 := addSwitch s4.1 s1.2 s4.2 ElementKind.trafo ("LBS") true
        (("Fuse ") ++ b.bname)
      let s6 := addLoad s5 s3.2 b.p_mw q b.bname
      addBuildings s6 s1.2 rest
    else none

/-- The feeder loop of `create_ucr_network` (lines 130-231): for each feeder
create the head bus, the feeder line from the campus bus, the circuit
breaker, then add the buildings chained from the feeder head. -/
def addFeeders (net : Network) (campus : Nat) :
    List (String × List BuildingSpec) → Option Network
  | [] => some net
  | (fname, bs) :: rest =>
    let s1 := addBus net 12 (fname ++ (" Head"))
    let s2 := addLine s1.1 campus s1.2 (1/100) (1/100) (1/100) 0 1
      (fname ++ (" Feeder Line"))
    let s3 := addSwitch s2.1 campus s2.2 ElementKind.line ("CB") true
      (("CB ") ++ fname)
    match addBuildings s3 s1.2 bs with
    | none => none
    | some net4 => addFeeders net4 campus rest

/-- The whole of `create_ucr_network` (lines 75-234), parameterized by the
building catalog: utility bus (69 kV) with the external grid at 1.02 p.u.,
campus main bus (12 kV), the 40 MVA main transformer, then the four feeders.
Returns `none` when construction raises (a power factor out of the `acos`
domain). -/
def createUcrNetworkOpt (catalog : Catalog) : Option Network :=
  let s1 := addBus emptyNetwork 69 ("RPU Grid")
  let n2 := addExtGrid s1.1 s1.2 (102/100)
  let s3 := addBus n2 12 ("Campus Main Bus")
  let s4 := addTrafo s3.1 s1.2 s3.2 40 69 12 (3/10) 12 30 (1/10)
    ("Main Substation Transformer")
  addFeeders s4.1 s3.2 catalog

/-- The building catalog of `get_ucr_building_data` (lines 35-72), verbatim. -/
def ucrCatalog : Catalog :=
  [ (("Feeder_A"),
     [ ⟨("Bourns Hall"), 0.45, 0.90⟩,
       ⟨("Winston Chung Hall"), 0.40, 0.90⟩,
       ⟨("Physics 2000"), 0.35, 0.92⟩,
       ⟨("Materials Sci & Eng"), 0.30, 0.90⟩,
       ⟨("Multidisciplinary Research Bldg"), 0.50, 0.88⟩ ]),
    (("Feeder_B"),
     [ ⟨("Spieth Hall"), 0.30, 0.90⟩,
       ⟨("Batchelor Hall"), 0.35, 0.90⟩,
       ⟨("Life Sciences"), 0.25, 0.95⟩,
       ⟨("School of Medicine Ed"), 0.40, 0.90⟩,
       ⟨("Genomics Building"), 0.38, 0.89⟩,
       ⟨("Greenhouse Operations"), 0.15, 0.95⟩ ]),
    (("Feeder_C"),
     [ ⟨("Hinderaker Hall"), 0.15, 0.95⟩,
       ⟨("Rivera Library"), 0.25, 0.92⟩,
       ⟨("Orbach Science Library"), 0.30, 0.92⟩,
       ⟨("Highlander Union (HUB)"), 0.35, 0.95⟩,
       ⟨("Student Services Bldg"), 0.15, 0.95⟩,
       ⟨("Humanities & Social Sci"), 0.20, 0.95⟩,
       ⟨("Arts Building"), 0.12, 0.95⟩ ]),
    (("Feeder_D"),
     [ ⟨("Aberdeen-Inverness"), 0.25, 0.98⟩,
       ⟨("Lothian Hall"), 0.25, 0.98⟩,
       ⟨("Pentland Hills"), 0.20, 0.98⟩,
       ⟨("Dundee Hall"), 0.22, 0.98⟩,
       ⟨("Glen Mor"), 0.30, 0.98⟩,
       ⟨("North District"), 0.40, 0.98⟩ ]) ]

/-- The concrete UCR network, as built by `create_ucr_network` on the supplied
catalog (construction succeeds; see `ucrNet_some`). -/
def ucrNet : Network := (createUcrNetworkOpt ucrCatalog).getD emptyNetwork

/-- The assignment `net.load["scaling"] = k` of the driver (lines 289 and
293): it writes the scaling column of every load row. -/
def setLoadScaling (net : Network) (k : ℚ) : Network :=
  { net with loads := net.loads.map fun l => { l with scaling := k } }

/-- The lookup `net.switch.index[net.switch.name == nm]` of line 298,
restricted to its first hit as used on line 301. -/
def findSwitchIdx (net : Network) (nm : String) : Option Nat :=
  net.switches.findIdx? fun s => s.name == nm

/-- The assignment `net.switch.at[i, "closed"] = c` of line 301. -/
def setSwitchClosed (net : Network) (i : Nat) (c : Bool) : Network :=
  { net with switches := net.switches.mapIdx fun j s =>
      if j = i then { s with closed := c } else s }

/-- Summary metrics printed by `run_simulation` on convergence: the served
total load `res_load.p_mw.sum()` and the bus-voltage extrema
`res_bus.vm_pu.min() / .max()` (lines 265-269). -/
structure SolveMetrics where
  total_p_mw : ℚ
  vm_min : ℚ
  vm_max : ℚ
deriving DecidableEq

/-- Modelled from the spec: the outcome of the external `pp.runpp` call of
line 256, which is not part of this repository.  Per §4.3 it either raises,
or completes with a convergence flag and the summary metrics. -/
inductive SolveOutcome where
  | raised (msg : String)
  | completed (converged : Bool) (metrics : SolveMetrics)

/-- The labeled result `run_simulation` reports for a scenario: the
"Simulation Failed" message (lines 257-259), the converged metrics
(lines 262-269), or "Did not converge" (lines 270-271). -/
inductive SimResult where
  | failed (msg : String)
  | convergedMetrics (m : SolveMetrics)
  | didNotConverge
deriving DecidableEq

/-- The body of `run_simulation` (lines 251-271) given the outcome of the
external solver call: every exception is caught and labeled, convergence
reports the metrics, and non-convergence is labeled explicitly. -/
def runSimulation (o : SolveOutcome) : SimResult :=
  match o with
  | SolveOutcome.raised msg => SimResult.failed msg
  | SolveOutcome.completed true m => SimResult.convergedMetrics m
  | SolveOutcome.completed false _ => SimResult.didNotConverge

/-- The `__main__` driver (lines 274-302), parameterized by the external
solver: base case; heatwave (every load scaled by 1.3); scaling reset to
1.0; then, when the switch named "CB Feeder_A" exists, it is opened and the
outage scenario is run.  Each attempted scenario contributes one labeled
result. -/
def mainSequence (solver : Network → SolveOutcome) (net0 : Network) :
    List (String × SimResult) :=
  let r1 := (("Base Case"), runSimulation (solver net0))
  let net1 := setLoadScaling net0 (13/10)
  let r2 := (("Heatwave Scenario"), runSimulation (solver net1))
  let net2 := setLoadScaling net1 1
  match findSwitchIdx net2 ("CB Feeder_A") with
  | none => [r1, r2]
  | some i =>
    let net3 := setSwitchClosed net2 i false
    [r1, r2, (("Feeder A Outage"), runSimulation (solver net3))]

/-- The network as mutated for the heatwave scenario (line 289). -/
def heatwaveNet : Network := setLoadScaling ucrNet (13/10)

/-- The network after the scaling reset of line 293, i.e. the state in which
the outage scenario is prepared. -/
def resetNet : Network := setLoadScaling heatwaveNet 1

/-- The network solved in the outage scenario: the circuit breaker of
Feeder A opened (lines 298-301). -/
def outageNet : Network :=
  match findSwitchIdx resetNet ("CB Feeder_A") with
  | none => resetNet
  | some i => setSwitchClosed resetNet i false

/-- Modelled from the spec (§4.2): a branch is enabled unless some switch
governing it is open.  pandapower's switch handling is inside the external
library, not this repository. -/
def branchEnabled (net : Network) (k : ElementKind) (idx : Nat) : Bool :=
  net.switches.all fun s => !(s.et == k && s.element == idx) || s.closed

/-- Modelled from the spec (§4.2): the endpoint pairs of the enabled
branches (lines and transformers). -/
def enabledEdges (net : Network) : List (Nat × Nat) :=
  (net.lines.enum.filterMap fun ei =>
    if branchEnabled net ElementKind.line ei.1 then
      some (ei.2.from_bus, ei.2.to_bus)
    else none)
  ++ (net.trafos.enum.filterMap fun ei =>
    if branchEnabled net ElementKind.trafo ei.1 then
      some (ei.2.hv_bus, ei.2.lv_bus)
    else none)

/-- One propagation pass of the reachability closure, over a reached-set
vector indexed by bus: an enabled branch with exactly one reached endpoint
marks the other endpoint reached. -/
def stepEdges (es : List (Nat × Nat)) (r : List Bool) : List Bool :=
  es.foldl
    (fun r e =>
      let a := r.getD e.1 false
      let b := r.getD e.2 false
      if a && !b then r.set e.2 true
      else if b && !a then r.set e.1 true
      else r)
    r

/-- Iterated propagation passes, stopping at a fixpoint. -/
def iterSteps (es : List (Nat × Nat)) : Nat → List Bool → List Bool
  | 0, r => r
  | k + 1, r =>
    let r2 := stepEdges es r
    if r2 == r then r else iterSteps es k r2

/-- Modelled from the spec (§4.2): the reached-set vector of the buses
reachable from the voltage source through closed-switch-enabled branches.
Each pass over the edges marks at least one newly reachable bus while any
exists, so one pass per bus reaches the closure. -/
def reachVec (net : Network) : List Bool :=
  match net.ext_grids with
  | [] => List.replicate net.buses.length false
  | g :: _ =>
    iterSteps (enabledEdges net) net.buses.length
      ((List.replicate net.buses.length false).set g.bus true)

/-- Modelled from the spec (§4.2): whether a bus is energized. -/
def energized (net : Network) (b : Nat) : Bool := (reachVec net).getD b false

/-- Modelled from the spec (§4.2-§4.4): the total served active power — loads
behind de-energized buses are excluded, the rest serve `p_mw * scaling`. -/
def servedPMw (net : Network) : ℚ :=
  let r := reachVec net
  ((net.loads.filter fun l => r.getD l.bus false).map fun l => l.p_mw * l.scaling).sum

/-- The index of the bus with the given name, when present. -/
def busIdxByName (net : Network) (nm : String) : Option Nat :=
  net.buses.findIdx? fun b => b.name == nm

/-- The endpoint pair of the line with the given name, when present. -/
def lineFromTo (net : Network) (nm : String) : Option (Nat × Nat) :=
  (net.lines.find? fun l => l.name == nm).map fun l => (l.from_bus, l.to_bus)

/-- Checks the series chain of one feeder: the line to each building leaves
from the previous hook point (the feeder head for the first building, the
previous building's MV node afterwards — and for the latter, explicitly not
from the feeder head or the campus bus) and arrives at the building's MV
node. -/
def chainFrom (net : Network) (campus head prev : Nat) (first : Bool) :
    List BuildingSpec → Bool
  | [] => true
  | b :: rest =>
    match busIdxByName net (("MV - ") ++ b.bname),
          lineFromTo net (("Line to ") ++ b.bname) with
    | some mv, some ft =>
      ft.1 == prev && ft.2 == mv &&
        (first || (ft.1 != head && ft.1 != campus)) &&
        chainFrom net campus head mv false rest
    | _, _ => false

/-- Checks the series chain of a named feeder starting at its head bus. -/
def feederChainOk (net : Network) (campus : Nat) (fname : String)
    (bs : List BuildingSpec) : Bool :=
  match busIdxByName net (fname ++ (" Head")) with
  | some head => chainFrom net campus head head true bs
  | none => false

/-- All building entries of the supplied catalog, in creation order. -/
def allBuildings : List BuildingSpec := (ucrCatalog.map Prod.snd).flatten

/-- The building list of a named feeder of the supplied catalog. -/
def feederBuildings (fname : String) : List BuildingSpec :=
  ((ucrCatalog.find? fun fb => fb.1 == fname).map Prod.snd).getD []

/-- The names of the buses of one feeder's sub-tree: the feeder head and
every building's MV and LV node. -/
def feederSubtreeBusNames (fname : String) : List String :=
  (fname ++ (" Head")) ::
    ((feederBuildings fname).map fun b =>
      [(("MV - ") ++ b.bname), (("LV - ") ++ b.bname)]).flatten

/-- A one-building catalog whose power factor -1/2 lies outside (0, 1] but
inside the domain of `math.acos`. -/
def badCatalogNegPf : Catalog :=
  [((("Feeder_X")), [⟨("Quarry Hall"), 1, -1/2⟩])]

/-- A one-building catalog whose power factor 3/2 lies outside the domain of
`math.acos`. -/
def badCatalogHighPf : Catalog :=
  [((("Feeder_X")), [⟨("Overunity Hall"), 1, 3/2⟩])]

attribute [local semireducible] Rat.mul Rat.add Rat.sub Rat.inv Rat.ofScientific

set_option maxRecDepth 4000

/-- Helper: the building loop fails exactly when some building's power factor
lies outside the domain of `math.acos`. -/
theorem addBuildings_none_iff (net : Network) (prev : Nat) (bs : List BuildingSpec) :
    addBuildings net prev bs = none ↔ ∃ b ∈ bs, acosDomainOk b.pf = false := by
  induction bs generalizing net prev with
  | nil => simp [addBuildings]
  | cons b rest ih =>
    by_cases h : acosDomainOk b.pf
    · simp [addBuildings, h, ih]
    · simp [addBuildings, h]

/-- Helper: the feeder loop fails exactly when some building's power factor
lies outside the domain of `math.acos`. -/
theorem addFeeders_none_iff (net : Network) (campus : Nat)
    (fbs : List (String × List BuildingSpec)) :
    addFeeders net campus fbs = none ↔
      ∃ fb ∈ fbs, ∃ b ∈ fb.2, acosDomainOk b.pf = false := by
  induction fbs generalizing net with
  | nil => simp [addFeeders]
  | cons fb rest ih =>
    unfold addFeeders
    dsimp only
    split
    · rename_i hb
      rw [addBuildings_none_iff] at hb
      simp only [List.mem_cons]
      constructor
      · intro _
        exact ⟨fb, Or.inl rfl, hb⟩
      · intro _
        trivial
    · rename_i n4 hb
      rw [ih]
      simp only [List.mem_cons]
      constructor
      · rintro ⟨g, hg, hgb⟩
        exact ⟨g, Or.inr hg, hgb⟩
      · rintro ⟨g, hg | hg, hgb⟩
        · subst hg
          rw [(addBuildings_none_iff _ _ g.2).mpr hgb] at hb
          exact Option.noConfusion hb
        · exact ⟨g, hg, hgb⟩

/-- Claim C1: every load is created with reactive power
`q_mvar = p_mw * tan(acos(pf))` from its catalog entry; for P = 1 MW and
PF = 0.9 that value is within 10^-4 of 0.4843 MVAr, and for PF = 1 it is
exactly 0. -/
theorem c1_load_reactive_power :
    ucrNet.loads.map (fun l => (l.p_mw, l.q_mvar))
      = allBuildings.map (fun b => (b.p_mw, QVal.mk b.p_mw b.pf)) ∧
    (∃ x : ℝ, QMvarEq 1 (9/10) x ∧ |x - 4843/10000| < 1/10000) ∧
    (∀ p : ℚ, QMvarEq p 1 0) := by
  refine ⟨by decide, ?_, ?_⟩
  · refine ⟨_, rfl, ?_⟩
    have hc : (((9 : ℚ)/10 : ℚ) : ℝ) = 9/10 := by norm_num
    have h1 : ((1 : ℚ) : ℝ) = 1 := by norm_num
    rw [hc, h1, one_mul, Real.tan_arccos]
    have e : (1 : ℝ) - (9/10) ^ 2 = 19/100 := by norm_num
    rw [e]
    have h2 : Real.sqrt (19/100) < 43595/100000 := by
      rw [Real.sqrt_lt' (by norm_num)]
      norm_num
    have h3 : (43579/100000 : ℝ) < Real.sqrt (19/100) := by
      rw [Real.lt_sqrt (by norm_num)]
      norm_num
    rw [abs_lt]
    constructor
    · nlinarith
    · nlinarith
  · intro p
    simp [QMvarEq, Real.arccos_one, Real.tan_zero]

/-- Claim C2: `run_simulation` always yields exactly one labeled outcome —
an exception becomes a labeled failure, convergence reports the metrics,
non-convergence is labeled explicitly — and the three scenarios attempted by
the main sequence each produce one labeled result, for any behaviour of the
external solver. -/
theorem c2_scenario_labeled_results (solver : Network → SolveOutcome) :
    (∀ o : SolveOutcome,
      (∃ msg, runSimulation o = SimResult.failed msg) ∨
      (∃ m, runSimulation o = SimResult.convergedMetrics m) ∨
      runSimulation o = SimResult.didNotConverge) ∧
    (∀ msg, runSimulation (SolveOutcome.raised msg) = SimResult.failed msg) ∧
    (∀ m, runSimulation (SolveOutcome.completed true m) = SimResult.convergedMetrics m) ∧
    (∀ m, runSimulation (SolveOutcome.completed false m) = SimResult.didNotConverge) ∧
    (mainSequence solver ucrNet).map Prod.fst
      = [("Base Case"), ("Heatwave Scenario"), ("Feeder A Outage")] := by
  refine ⟨?_, fun _ => rfl, fun _ => rfl, fun _ => rfl, rfl⟩
  intro o
  match o with
  | SolveOutcome.raised msg => exact Or.inl ⟨msg, rfl⟩
  | SolveOutcome.completed true m => exact Or.inr (Or.inl ⟨m, rfl⟩)
  | SolveOutcome.completed false m => exact Or.inr (Or.inr rfl)

/-- Claim C2 witness: the main sequence instantiated with a concrete solver
outcome still produces the three labeled results. -/
theorem c2_scenario_labeled_results_witness :
    (mainSequence (fun _ => SolveOutcome.raised ("numerical failure")) ucrNet).map Prod.fst
      = [("Base Case"), ("Heatwave Scenario"), ("Feeder A Outage")] :=
  (c2_scenario_labeled_results (fun _ => SolveOutcome.raised ("numerical failure"))).2.2.2.2

/-- Claim C3: the heatwave perturbation sets the scaling factor of every load
to 1.3; the reset before the outage scenario restores every scaling factor
to the baseline 1.0 (the load table is back to its baseline state, and
opening the breaker leaves it untouched); bus, p_mw and q_mvar of every
load are unchanged by the scaling perturbation. -/
theorem c3_heatwave_scaling_frame :
    (heatwaveNet.loads.all fun l => l.scaling == 13/10) = true ∧
    heatwaveNet.loads.length = ucrNet.loads.length ∧
    (ucrNet.loads.all fun l => l.scaling == 1) = true ∧
    (resetNet.loads.all fun l => l.scaling == 1) = true ∧
    resetNet.loads = ucrNet.loads ∧
    outageNet.loads = ucrNet.loads ∧
    heatwaveNet.loads.map (fun l => (l.bus, l.p_mw, l.q_mvar))
      = ucrNet.loads.map (fun l => (l.bus, l.p_mw, l.q_mvar)) := by
  decide

/-- Claim C4: opening the Feeder A circuit breaker de-energizes every bus of
that feeder's sub-tree (head, MV and LV nodes), and the served active power
drops from the baseline by at least the sum of Feeder A's building demands. -/
theorem c4_feederA_outage_served_power :
    (feederSubtreeBusNames ("Feeder_A")).length = 11 ∧
    ((feederSubtreeBusNames ("Feeder_A")).all fun nm =>
      match busIdxByName outageNet nm with
      | some b => !(energized outageNet b)
      | none => false) = true ∧
    (outageNet.switches.all fun s => s.name != ("CB Feeder_A") || !s.closed) = true ∧
    servedPMw ucrNet - servedPMw outageNet
      ≥ ((feederBuildings ("Feeder_A")).map fun b => b.p_mw).sum := by
  decide

/-- Claim C5: the constructed network has exactly one voltage source, the
external grid at bus 0 (the 69 kV utility bus) with set point 1.02 p.u.,
and neither load scaling nor switch toggling — the only scenario
operations — touches the external-grid table. -/
theorem c5_unique_voltage_source :
    ucrNet.ext_grids = [{ bus := 0, vm_pu := 51/50 }] ∧
    ucrNet.buses[0]? = some { name := ("RPU Grid"), vn_kv := 69 } ∧
    (∀ (net : Network) (k : ℚ), (setLoadScaling net k).ext_grids = net.ext_grids) ∧
    (∀ (net : Network) (i : Nat) (c : Bool),
      (setSwitchClosed net i c).ext_grids = net.ext_grids) ∧
    heatwaveNet.ext_grids = ucrNet.ext_grids ∧
    resetNet.ext_grids = ucrNet.ext_grids ∧
    outageNet.ext_grids = ucrNet.ext_grids := by
  refine ⟨by decide, by decide, fun _ _ => rfl, fun _ _ _ => rfl, rfl, rfl, by decide⟩

/-- Claim C5 witness: the scenario operations applied to the concrete
network leave its single external grid record unchanged. -/
theorem c5_unique_voltage_source_witness :
    (setLoadScaling ucrNet (13/10)).ext_grids = ucrNet.ext_grids :=
  c5_unique_voltage_source.2.2.1 ucrNet (13/10)

/-- Claim C6: both terminal buses of every transformer exist and their
nominal voltages equal the transformer's rated voltages; the main
transformer is rated 69/12 kV between bus 0 and bus 1, and each building
transformer is rated 12/0.48 kV between the building's 12 kV MV node and
its 0.48 kV LV node. -/
theorem c6_trafo_terminal_voltages :
    (ucrNet.trafos.all fun t =>
      (match ucrNet.buses[t.hv_bus]? with
       | some bu => bu.vn_kv == t.vn_hv_kv
       | none => false) &&
      (match ucrNet.buses[t.lv_bus]? with
       | some bu => bu.vn_kv == t.vn_lv_kv
       | none => false)) = true ∧
    ucrNet.trafos[0]? = some
      { hv_bus := 0, lv_bus := 1, sn_mva := 40, vn_hv_kv := 69, vn_lv_kv := 12,
        vkr_percent := 3/10, vk_percent := 12, pfe_kw := 30, i0_percent := 1/10,
        name := ("Main Substation Transformer") } ∧
    (ucrNet.trafos.drop 1).length = allBuildings.length ∧
    (((ucrNet.trafos.drop 1).zip allBuildings).all fun tb =>
      tb.1.vn_hv_kv == 12 && tb.1.vn_lv_kv == 48/100 &&
      (match ucrNet.buses[tb.1.hv_bus]? with
       | some bu => bu.name == (("MV - ") ++ tb.2.bname) && bu.vn_kv == 12
       | none => false) &&
      (match ucrNet.buses[tb.1.lv_bus]? with
       | some bu => bu.name == (("LV - ") ++ tb.2.bname) && bu.vn_kv == 48/100
       | none => false)) = true := by
  decide

/-- Claim C7: each feeder is a series chain — the line to the first building
leaves the feeder head, and the line to every later building leaves the
immediately preceding building's MV node (never the feeder head or the
campus main bus), in catalog order. -/
theorem c7_series_chain_topology :
    ucrNet.buses[1]? = some { name := ("Campus Main Bus"), vn_kv := 12 } ∧
    (ucrCatalog.all fun fb => feederChainOk ucrNet 1 fb.1 fb.2) = true := by
  decide

/-- Claim C8 counterexample: a building with power factor -1/2 — outside
(0, 1] — does not make construction fail: the network is built and its load
table is populated, so construction silently proceeds. -/
theorem c8_counterexample_pf_negative :
    (¬ (0 < (-1/2 : ℚ) ∧ (-1/2 : ℚ) ≤ 1)) ∧
    (badCatalogNegPf.all fun fb => fb.2.all fun b => b.pf == -1/2) = true ∧
    (createUcrNetworkOpt badCatalogNegPf).isSome = true ∧
    ((createUcrNetworkOpt badCatalogNegPf).getD emptyNetwork).loads.length = 1 := by
  decide

/-- Claim C8 as amended: construction fails at construction time exactly when
some power factor lies outside [-1, 1], the domain of `math.acos` (a power
factor in [-1, 0], though outside (0, 1], is silently accepted); every
power factor of the supplied catalog lies in (0, 1] and construction
succeeds on it. -/
theorem c8_amended_acos_domain :
    (∀ cat : Catalog, createUcrNetworkOpt cat = none ↔
      ∃ fb ∈ cat, ∃ b ∈ fb.2, ¬(-1 ≤ b.pf ∧ b.pf ≤ 1)) ∧
    (ucrCatalog.all fun fb => fb.2.all fun b => decide (0 < b.pf ∧ b.pf ≤ 1)) = true ∧
    (createUcrNetworkOpt ucrCatalog).isSome = true := by
  refine ⟨?_, by decide, by decide⟩
  intro cat
  unfold createUcrNetworkOpt
  dsimp only
  rw [addFeeders_none_iff]
  simp only [acosDomainOk, decide_eq_false_iff_not]

/-- Claim C8 witness: a power factor of 3/2 lies outside the `acos` domain
and construction fails on the catalog containing it. -/
theorem c8_amended_acos_domain_witness :
    createUcrNetworkOpt badCatalogHighPf = none :=
  (c8_amended_acos_domain.1 badCatalogHighPf).mpr
    ⟨((("Feeder_X")), [⟨("Overunity Hall"), 1, 3/2⟩]), List.mem_singleton.mpr rfl,
      ⟨⟨("Overunity Hall"), 1, 3/2⟩, List.mem_singleton.mpr rfl, by norm_num⟩⟩

/-- Claim C9: network construction is a deterministic function of the
catalog — two invocations on the same catalog agree on every element
table — and on the supplied catalog it produces `ucrNet`. -/
theorem c9_deterministic_construction :
    (∀ (cat : Catalog) (n1 n2 : Network),
      createUcrNetworkOpt cat = some n1 → createUcrNetworkOpt cat = some n2 →
        n1.buses = n2.buses ∧ n1.ext_grids = n2.ext_grids ∧ n1.lines = n2.lines ∧
        n1.trafos = n2.trafos ∧ n1.switches = n2.switches ∧ n1.loads = n2.loads) ∧
    createUcrNetworkOpt ucrCatalog = some ucrNet := by
  constructor
  · intro cat n1 n2 h1 h2
    rw [h1] at h2
    cases h2
    exact ⟨rfl, rfl, rfl, rfl, rfl, rfl⟩
  · have h : (createUcrNetworkOpt ucrCatalog).isSome = true := by decide
    cases hc : createUcrNetworkOpt ucrCatalog with
    | none => rw [hc] at h; exact Bool.noConfusion h
    | some n =>
      unfold ucrNet
      rw [hc]
      rfl

/-- Claim C9 witness: determinism applied to the concrete construction of the
supplied catalog. -/
theorem c9_deterministic_construction_witness :
    ucrNet.buses = ucrNet.buses ∧ ucrNet.ext_grids = ucrNet.ext_grids ∧
    ucrNet.lines = ucrNet.lines ∧ ucrNet.trafos = ucrNet.trafos ∧
    ucrNet.switches = ucrNet.switches ∧ ucrNet.loads = ucrNet.loads :=
  c9_deterministic_construction.1 ucrCatalog ucrNet ucrNet
    c9_deterministic_construction.2 c9_deterministic_construction.2

/-- Claim C10: the constructed network has 54 buses, 28 lines,
25 transformers, 28 switches and 24 loads; every switch is created closed,
and at baseline every bus is energized (connected to the voltage source). -/
theorem c10_component_census :
    ucrNet.buses.length = 54 ∧ ucrNet.lines.length = 28 ∧
    ucrNet.trafos.length = 25 ∧ ucrNet.switches.length = 28 ∧
    ucrNet.loads.length = 24 ∧
    (ucrNet.switches.all fun s => s.closed) = true ∧
    (reachVec ucrNet).length = 54 ∧
    ((reachVec ucrNet).all fun v => v) = true := by
  decide

end UCRGrid
